/-
Verification development for the Immigration AI Visa Guardian retrieval core.

The definitions below are a shallow embedding of the Python source:
  * `VisaGuardian.RagChatbot.*`  embeds `app/rag_chatbot.py`
    (visa classification, question classification, FAISS-backed retrieval,
    knowledge-base injection, prompt assembly, and the chat entry point);
  * `VisaGuardian.EvalRetrieval.*` embeds the hybrid reranker of
    `scripts/eval_retrieval.py` (`search`).

Modelling conventions:
  * Python strings are Lean `String`s processed as `List Char`; `str.lower`,
    `str.upper`, `str.strip` and the `\b` word boundary of the `re` module are
    modelled over the ASCII range, which covers every character these tables
    and queries use.
  * Python floats are modelled as exact rationals (`ℚ`); the constants 0.1,
    0.15, 0.2, 0.05 become 1/10, 3/20, 1/5, 1/20.
  * The external collaborators (sentence embedding + FAISS index, the TF-IDF
    vectorizer, and the LLM generation endpoint) are parameters: the FAISS
    search is a function returning (id, score) pairs, TF-IDF cosine similarity
    is an abstract similarity function, and generation is a `String → String`
    field of the chatbot state.
-/
import Mathlib

namespace VisaGuardian

/-! ## ASCII string utilities (model of the Python `str` operations used) -/

/-- ASCII lowercase of one character (model of `str.lower` on ASCII input). -/
def lowerChar (c : Char) : Char :=
  if 'A' ≤ c && c ≤ 'Z' then Char.ofNat (c.toNat + 32) else c

/-- ASCII uppercase of one character (model of `str.upper` on ASCII input). -/
def upperChar (c : Char) : Char :=
  if 'a' ≤ c && c ≤ 'z' then Char.ofNat (c.toNat - 32) else c

/-- Model of `str.lower` (ASCII range). -/
def lowerString (s : String) : String := String.mk (s.data.map lowerChar)

/-- Model of `str.upper` (ASCII range). -/
def upperString (s : String) : String := String.mk (s.data.map upperChar)

/-- ASCII whitespace, as stripped by `str.strip` on the inputs used here. -/
def isSpaceChar (c : Char) : Bool :=
  c == ' ' || c == '\t' || c == '\n' || c == '\r'

/-- Model of `str.strip`. -/
def stripStr (s : String) : String :=
  String.mk (((s.data.dropWhile isSpaceChar).reverse.dropWhile isSpaceChar).reverse)

/-- `listIsSub pat l` is true when `pat` occurs as a contiguous sublist of `l`
(model of Python's `pat in hay` substring test). -/
def listIsSub (pat : List Char) : List Char → Bool
  | [] => pat.isEmpty
  | c :: rest => pat.isPrefixOf (c :: rest) || listIsSub pat rest

/-- `containsSub hay pat` models Python's `pat in hay` on strings. -/
def containsSub (hay pat : String) : Bool := listIsSub pat.data hay.data

/-- Word character in the sense of the `re` module's `\b` (ASCII range). -/
def isWordChar (c : Char) : Bool :=
  ('a' ≤ c && c ≤ 'z') || ('A' ≤ c && c ≤ 'Z') || ('0' ≤ c && c ≤ '9') || c == '_'

/-- True when the character right after an occurrence of `pat` at the head of
`rest` is absent or a non-word character (the closing `\b`). -/
def boundaryAfter (pat rest : List Char) : Bool :=
  match rest.drop pat.length with
  | [] => true
  | c :: _ => !isWordChar c

/-- Scan for a word-bounded occurrence of `pat`; `prevOk` records whether the
character before the current position was absent or a non-word character. -/
def wordBoundedAux (pat : List Char) : Bool → List Char → Bool
  | _, [] => false
  | prevOk, c :: rest =>
    (prevOk && pat.isPrefixOf (c :: rest) && boundaryAfter pat (c :: rest)) ||
      wordBoundedAux pat (!isWordChar c) rest

/-- `wordBoundedIn pat s` models `re.search(r"\b" + pat + r"\b", s)` being a
match, for patterns that begin and end with word characters. -/
def wordBoundedIn (pat : String) (s : String) : Bool :=
  wordBoundedAux pat.data true s.data

/-- Model of `sep.join(parts)`. -/
def joinWith (sep : String) : List String → String
  | [] => ""
  | [x] => x
  | x :: y :: rest => x ++ sep ++ joinWith sep (y :: rest)

/-- Split a character list on a separator character (model of `str.split`). -/
def splitListOn (c : Char) : List Char → List (List Char)
  | [] => [[]]
  | x :: xs =>
    if x == c then [] :: splitListOn c xs
    else
      match splitListOn c xs with
      | [] => [[x]]
      | h :: t => (x :: h) :: t

/-- Model of `s.split(c)` for a one-character separator. -/
def splitOnChar (c : Char) (s : String) : List String :=
  (splitListOn c s.data).map String.mk

/-- Model of `s.startswith(pre)`. -/
def strStartsWith (s pre : String) : Bool := pre.data.isPrefixOf s.data

/-- Model of the slice `s[:n]`. -/
def takeChars (n : Nat) (s : String) : String := String.mk (s.data.take n)

/-- Deduplicate keeping first occurrences.  This is the deterministic model of
Python's `set(...)` in `classify_visa_type`; the Python iteration order over a
set is unspecified, but every claim checked here exercises it only on
singleton suggestion sets, where the order is immaterial. -/
def dedupAux : List String → List String → List String
  | _, [] => []
  | seen, x :: xs =>
    if seen.contains x then dedupAux seen xs else x :: dedupAux (x :: seen) xs

/-- Keep-first deduplication of a list of strings. -/
def dedupKeepFirst (l : List String) : List String := dedupAux [] l

/-- Model of `str.replace('_', ' ')`. -/
def replaceUnderscores (s : String) : String :=
  String.mk (s.data.map (fun c => if c == '_' then ' ' else c))

/-- Helper for `titleStr`: the flag records whether the previous character was
an ASCII letter. -/
def titleAux : Bool → List Char → List Char
  | _, [] => []
  | prevAlpha, c :: cs =>
    let alpha := ('a' ≤ c && c ≤ 'z') || ('A' ≤ c && c ≤ 'Z')
    let c' := if alpha then (if prevAlpha then lowerChar c else upperChar c) else c
    c' :: titleAux alpha cs

/-- Model of `str.title` on ASCII input. -/
def titleStr (s : String) : String := String.mk (titleAux false s.data)

/-! ## Data model -/

/-- One metadata entry of a visa index (a retrievable clause).  The offline
corpus builder populates `title`, `text`, `url`, `section_hint`, `visa_tags`
for every entry, so the fields are total here. -/
structure Doc where
  title : String
  text : String
  url : String
  section_hint : String
  visa_tags : List String
deriving DecidableEq

/-- Default metadata entry (used for the total model of list indexing; FAISS
only returns in-range ids, so in-range behaviour is what matters). -/
def defaultDoc : Doc :=
  { title := "", text := "", url := "", section_hint := "", visa_tags := [] }

/-- A clause together with the similarity score attached by retrieval
(Python: `doc = meta[i].copy(); doc['score'] = float(score)`). -/
structure ScoredDoc where
  title : String
  text : String
  url : String
  section_hint : String
  visa_tags : List String
  score : ℚ
deriving DecidableEq

/-- Attach a retrieval score to a copy of a metadata entry. -/
def attachScore (d : Doc) (s : ℚ) : ScoredDoc :=
  { title := d.title, text := d.text, url := d.url,
    section_hint := d.section_hint, visa_tags := d.visa_tags, score := s }

/-- One entry of the `sources` list of a chat response. -/
structure SourceCite where
  title : String
  url : String
  section_hint : String
  score : ℚ
  visa_tags : List String
deriving DecidableEq

/-- The response dictionary returned by `chat`. -/
structure ChatResponse where
  query : String
  visa_type : String
  question_type : String
  answer : String
  sources : List SourceCite
  num_sources : Nat
deriving DecidableEq

/-- The chatbot state: which indexes were loaded, their metadata lists, the
FAISS nearest-neighbour collaborator (`search(vector, k) → ids/scores`, here
keyed by visa label), and the generation collaborator (prompt → answer). -/
structure Chatbot where
  hasIndex : String → Bool
  metas : String → List Doc
  searchFn : String → Nat → List (Int × ℚ)
  generate : String → String

namespace RagChatbot

/-! ### `classify_visa_type` -/

/-- The greeting patterns (each used under `\b ... \b` word boundaries). -/
def greeting_patterns : List String :=
  ["hi", "hello", "hey", "good morning", "good afternoon", "good evening",
   "how are you", "what\x27s up"]

/-- True when some greeting pattern occurs word-bounded in the lowercased
query. -/
def greetingHit (query_lower : String) : Bool :=
  greeting_patterns.any (fun p => wordBoundedIn p query_lower)

/-- The `typo_mapping` dict.  The Python literal repeats several keys; a dict
keeps the first position and the last value of a repeated key, and this list
is that resulting dict in iteration order. -/
def typo_mapping : List (String × String) :=
  [("f.1", "f1"), ("f1", "f1"), ("f.2", "f2"), ("f2", "f2"),
   ("hvb", "h-1b"), ("h1b", "h1b"), ("h.1b", "h1b"),
   ("h.4", "h-4"), ("h4", "h4"),
   ("j.1", "j-1"), ("j1", "j1"), ("j.2", "j-2"), ("j2", "j2")]

/-- The per-visa keyword lists, in dict insertion order. -/
def visa_keywords : List (String × List String) :=
  [("F1", ["f-1", "f1", "student", "study", "university", "college", "opt",
           "cpt", "on-campus", "off-campus", "practical training"]),
   ("F2", ["f-2", "f2", "dependent", "spouse", "child", "family"]),
   ("H1B", ["h-1b", "h1b", "work", "employment", "specialty", "occupation"]),
   ("H4", ["h-4", "h4", "dependent", "spouse", "child", "family"]),
   ("J1", ["j-1", "j1", "exchange", "visitor", "research", "scholar"]),
   ("J2", ["j-2", "j2", "dependent", "spouse", "child", "family"])]

/-- The exact visa-code tokens that score 3 instead of 1. -/
def exact_codes : List String :=
  ["f-1", "f1", "f-2", "f2", "h-1b", "h1b", "h-4", "h4", "j-1", "j1", "j-2", "j2"]

/-- The weighted keyword score of one visa category against the lowercased
query. -/
def keywordScore (query_lower : String) (keywords : List String) : Nat :=
  keywords.foldl
    (fun acc kw =>
      if containsSub query_lower kw then
        acc + (if exact_codes.contains kw then 3 else 1)
      else acc)
    0

/-- Python's `max(items, key=...)`: the first item with the maximal key wins
ties. -/
def maxByFirst : List (String × Nat) → (String × Nat)
  | [] => ("", 0)
  | x :: xs => xs.foldl (fun best y => if best.2 < y.2 then y else best) x

/-- The suggestion(s) contributed by one detected typo (the `f`/`h`/`j`
branches of the clarification builder; each branch appends one string). -/
def suggestFor (typo : String) : List String :=
  if containsSub (lowerString typo) "f" then
    [if containsSub typo "1" then "F-1 (student visa)"
     else if containsSub typo "2" then "F-2 (dependent visa)"
     else "F-1 or F-2"]
  else if containsSub (lowerString typo) "h" then
    [if containsSub typo "1" || containsSub typo "b" then "H-1B (work visa)"
     else if containsSub typo "4" then "H-4 (dependent visa)"
     else "H-1B or H-4"]
  else if containsSub (lowerString typo) "j" then
    [if containsSub typo "1" then "J-1 (exchange visitor)"
     else if containsSub typo "2" then "J-2 (dependent visa)"
     else "J-1 or J-2"]
  else []

/-- `classify_visa_type`: greeting short-circuit, typo scan, weighted keyword
scoring with first-declared tie-break, typo clarification when nothing
scored, else the best visa or `"general"`. -/
def classify_visa_type (query : String) : String :=
  let query_lower := lowerString query
  if greetingHit query_lower then "general"
  else
    let potential_typos := typo_mapping.filter (fun p => containsSub query_lower p.1)
    let scores := visa_keywords.map (fun p => (p.1, keywordScore query_lower p.2))
    let best_visa := maxByFirst scores
    let clar : Option String :=
      if !potential_typos.isEmpty && best_visa.2 == 0 then
        let suggestions := potential_typos.flatMap (fun p => suggestFor p.1)
        if !suggestions.isEmpty then
          some ("typo_clarification:" ++ joinWith "," (dedupKeepFirst suggestions))
        else none
      else none
    match clar with
    | some s => s
    | none => if 0 < best_visa.2 then best_visa.1 else "general"

/-! ### `classify_question_type` -/

def technical_keywords : List String :=
  ["exact", "specific", "precise", "limit", "requirement", "deadline",
   "timeline", "calculation", "formula", "percentage", "days", "hours",
   "weeks", "months", "unemployment", "cap", "quota", "prevailing wage",
   "lca", "i-765", "i-129", "sevis", "ds-2019", "i-20", "ead",
   "grace period", "extension"]

def procedural_keywords : List String :=
  ["how to", "step by step", "process", "procedure", "apply", "file",
   "submit", "application", "form", "document", "requirement", "checklist",
   "timeline", "deadline", "when to", "where to", "what forms", "which form"]

def emergency_keywords : List String :=
  ["emergency", "urgent", "immediately", "right now", "today", "tomorrow",
   "expired", "expiring", "terminated", "laid off", "fired", "lost job",
   "out of status", "violation", "deportation", "removal", "overstay"]

def comparison_keywords : List String :=
  ["difference between", "vs", "versus", "compare", "similar", "different",
   "better", "worse", "advantage", "disadvantage", "pros", "cons"]

/-- Substring-containment count of a keyword list against the lowercased
query. -/
def countMatches (query_lower : String) (keywords : List String) : Nat :=
  (keywords.filter (fun kw => containsSub query_lower kw)).length

/-- `classify_question_type`: highest count wins, ties by table order
(technical, procedural, emergency, comparison); all-zero gives `general`. -/
def classify_question_type (query : String) : String :=
  let query_lower := lowerString query
  let scores : List (String × Nat) :=
    [("technical", countMatches query_lower technical_keywords),
     ("procedural", countMatches query_lower procedural_keywords),
     ("emergency", countMatches query_lower emergency_keywords),
     ("comparison", countMatches query_lower comparison_keywords)]
  let best_type := maxByFirst scores
  if 0 < best_type.2 then best_type.1 else "general"

/-! ### `search_relevant_docs` -/

/-- The retrieval depth recomputed inside `search_relevant_docs` (the `k`
argument of the Python function is overwritten on both branches). -/
def retrievalK (query : String) : Nat :=
  if classify_question_type query ∈ (["technical", "procedural", "emergency"] : List String)
  then 8 else 5

/-- `search_relevant_docs`: empty when no index is loaded for the visa,
otherwise the FAISS hits filtered to non-negative ids with score
strictly above 0.1, each attached to a copy of its metadata entry. -/
def search_relevant_docs (bot : Chatbot) (query : String) (visa_type : String) :
    List ScoredDoc :=
  if !bot.hasIndex visa_type then []
  else
    let k := retrievalK query
    let hits := bot.searchFn visa_type k
    (hits.filter (fun p => decide (0 ≤ p.1 ∧ mkRat 1 10 < p.2))).map
      (fun p => attachScore ((bot.metas visa_type).getD p.1.toNat defaultDoc) p.2)

/-! ### Knowledge base and `inject_knowledge_base` -/

/-- `self.knowledge_base["f1_opt_unemployment"]`. -/
def kb_f1_opt_unemployment : List (String × String) :=
  [("standard_opt", "90 days total during the 12-month OPT period"),
   ("stem_opt", "150 days total (90 days from initial OPT + 60 days during STEM extension)"),
   ("source", "USCIS Policy Manual, Volume 2, Part F, Chapter 5")]

/-- `self.knowledge_base["f1_cpt_limits"]`. -/
def kb_f1_cpt_limits : List (String × String) :=
  [("full_time_cpt", "12 months or more of full-time CPT eliminates OPT eligibility at the same educational level"),
   ("part_time_cpt", "Part-time CPT does not reduce OPT eligibility"),
   ("source", "8 CFR § 214.2(f)(10)(i)")]

/-- `self.knowledge_base["h1b_cap"]`. -/
def kb_h1b_cap : List (String × String) :=
  [("regular_cap", "65,000 visas per fiscal year"),
   ("masters_cap", "20,000 additional visas for advanced degree holders"),
   ("exemptions", "H-1B workers at institutions of higher education, nonprofit research organizations, and government research organizations are cap-exempt"),
   ("source", "INA § 214(g)")]

/-- `self.knowledge_base["h4_ead_eligibility"]`. -/
def kb_h4_ead_eligibility : List (String × String) :=
  [("requirements", "H-4 spouse must have H-1B spouse with approved I-140 or H-1B status extended beyond 6 years under AC21"),
   ("form", "Form I-765"),
   ("processing_time", "3-6 months"),
   ("source", "8 CFR § 274a.12(c)(26)")]

/-- `self.knowledge_base["j1_waiver_categories"]`. -/
def kb_j1_waiver_categories : List (String × String) :=
  [("no_objection", "Home country government provides no-objection statement"),
   ("interested_government", "U.S. federal agency requests waiver"),
   ("persecution", "Fear of persecution based on race, religion, or political opinion"),
   ("exceptional_hardship", "Exceptional hardship to U.S. citizen or permanent resident spouse/child"),
   ("conrad_30", "Physicians working in underserved areas"),
   ("source", "INA § 212(e)")]

/-- `kb.get(key, 'N/A')`. -/
def kbGet (kb : List (String × String)) (key : String) : String :=
  (List.lookup key kb).getD "N/A"

/-- The `additional_info` list built by `inject_knowledge_base` (the
`if kb_info:` guards in the source always pass: the entries are non-empty
constants). -/
def additionalInfo (query : String) (visa_type : String) : List String :=
  let query_lower := lowerString query
  if visa_type == "F1" then
    (if (["unemployment", "limit", "days", "opt"] : List String).any
        (fun t => containsSub query_lower t) then
      ["OPT Unemployment Limits (Knowledge Base):",
       "• Standard OPT: " ++ kbGet kb_f1_opt_unemployment "standard_opt",
       "• STEM OPT: " ++ kbGet kb_f1_opt_unemployment "stem_opt",
       "Source: " ++ kbGet kb_f1_opt_unemployment "source"]
    else []) ++
    (if (["cpt", "curricular", "practical training"] : List String).any
        (fun t => containsSub query_lower t) then
      ["CPT Limits (Knowledge Base):",
       "• Full-time CPT: " ++ kbGet kb_f1_cpt_limits "full_time_cpt",
       "• Part-time CPT: " ++ kbGet kb_f1_cpt_limits "part_time_cpt",
       "Source: " ++ kbGet kb_f1_cpt_limits "source"]
    else [])
  else if visa_type == "H1B" then
    if (["cap", "quota", "limit", "65,000", "20,000"] : List String).any
        (fun t => containsSub query_lower t) then
      ["H-1B Cap Information (Knowledge Base):",
       "• Regular Cap: " ++ kbGet kb_h1b_cap "regular_cap",
       "• Masters Cap: " ++ kbGet kb_h1b_cap "masters_cap",
       "• Exemptions: " ++ kbGet kb_h1b_cap "exemptions",
       "Source: " ++ kbGet kb_h1b_cap "source"]
    else []
  else if visa_type == "H4" then
    if (["work", "employment", "ead", "i-765"] : List String).any
        (fun t => containsSub query_lower t) then
      ["H-4 EAD Eligibility (Knowledge Base):",
       "• Requirements: " ++ kbGet kb_h4_ead_eligibility "requirements",
       "• Form: " ++ kbGet kb_h4_ead_eligibility "form",
       "• Processing Time: " ++ kbGet kb_h4_ead_eligibility "processing_time",
       "Source: " ++ kbGet kb_h4_ead_eligibility "source"]
    else []
  else if visa_type == "J1" || visa_type == "J2" then
    if (["waiver", "2-year", "home residency", "212(e)"] : List String).any
        (fun t => containsSub query_lower t) then
      ["J-1 Waiver Categories (Knowledge Base):"] ++
      ((kb_j1_waiver_categories.filter (fun p => p.1 ≠ "source")).map
        (fun p => "• " ++ titleStr (replaceUnderscores p.1) ++ ": " ++ p.2)) ++
      ["Source: " ++ kbGet kb_j1_waiver_categories "source"]
    else []
  else []

/-- The text `inject_knowledge_base` appends after the caller's context; it
is a function of the query and visa type only. -/
def kbSuffix (query : String) (visa_type : String) : String :=
  if (additionalInfo query visa_type).isEmpty then ""
  else "\n\n" ++ joinWith "\n" (additionalInfo query visa_type)

/-- `inject_knowledge_base`: append the matching fact blocks to the context,
or return the context unchanged when nothing fires. -/
def inject_knowledge_base (query : String) (context : String) (visa_type : String) :
    String :=
  let additional_info := additionalInfo query visa_type
  if !additional_info.isEmpty then context ++ "\n\n" ++ joinWith "\n" additional_info
  else context

/-! ### `generate_answer` -/

/-- The fixed welcome answer returned for a general query with no retrieved
documents. -/
def welcomeMessage : String :=
  "Hello! I\x27m your Immigration Guardian. I can help you with questions about F-1, F-2, H-1B, H-4, J-1, and J-2 visa laws and regulations. What would you like to know?"

/-- The fixed no-information answer returned for a visa-specific query with
no retrieved documents. -/
def noInfoMessage : String :=
  "I don\x27t have enough information to answer that question accurately. Please try rephrasing or ask about a different immigration topic."

/-- The `context_parts` lines built from the first documents (Python
`enumerate(relevant_docs[:5])`, with the `[:5]` truncation applied by the
caller of this helper). -/
def contextLines : Nat → List ScoredDoc → List String
  | _, [] => []
  | i, d :: rest =>
    (["Source " ++ toString (i + 1) ++ ": " ++ d.title] ++
     (if d.section_hint ≠ "" then ["Section: " ++ d.section_hint] else []) ++
     ["Content: " ++ takeChars 800 d.text] ++
     (if d.url ≠ "" then ["URL: " ++ d.url] else []) ++
     ["---"]) ++ contextLines (i + 1) rest

/-- The prompt used when `visa_type == "general"`. -/
def generalPrompt (query : String) : String :=
  "You are an immigration law expert assistant. The user has asked a general greeting or question. Provide a brief, friendly welcome response that introduces your capabilities.\n\nUser Question: "
    ++ query ++
    "\n\nPlease provide a short, welcoming response (2-3 sentences) that:\n1. Acknowledges their greeting\n2. Briefly mentions you can help with F-1, F-2, H-1B, H-4, J-1, and J-2 visa questions\n3. Encourages them to ask a specific immigration question\n\nKeep it concise and friendly."

/-- The prompt used for technical questions. -/
def technicalPrompt (context query : String) : String :=
  "You are an immigration law expert assistant. The user has asked a technical question requiring specific details, numbers, or precise information.\n\nContext:\n"
    ++ context ++ "\n\nUser Question: " ++ query ++
    "\n\nIMPORTANT INSTRUCTIONS:\n1. Provide SPECIFIC numbers, dates, limits, and requirements when available\n2. Cite exact regulatory sections (e.g., \"8 CFR § 214.2(f)(10)(ii)\")\n3. Include specific form numbers and deadlines\n4. If specific information is not in the context, clearly state what is known vs unknown\n5. Provide actionable, concrete guidance\n6. Use bullet points for clarity when listing requirements\n\nAnswer:"

/-- The prompt used for procedural questions. -/
def proceduralPrompt (context query : String) : String :=
  "You are an immigration law expert assistant. The user has asked a procedural question about how to do something.\n\nContext:\n"
    ++ context ++ "\n\nUser Question: " ++ query ++
    "\n\nIMPORTANT INSTRUCTIONS:\n1. Provide a STEP-BY-STEP process\n2. Include specific form numbers and filing locations\n3. Mention timelines and deadlines\n4. List required documents and evidence\n5. Include important tips and warnings\n6. Use numbered steps for clarity\n7. Mention any fees or costs involved\n\nAnswer:"

/-- The prompt used for emergency questions. -/
def emergencyPrompt (context query : String) : String :=
  "You are an immigration law expert assistant. The user has asked an urgent/emergency question.\n\nContext:\n"
    ++ context ++ "\n\nUser Question: " ++ query ++
    "\n\nIMPORTANT INSTRUCTIONS:\n1. Prioritize IMMEDIATE actions the user should take\n2. Highlight any deadlines or time-sensitive requirements\n3. Mention potential consequences if action is not taken\n4. Provide contact information for USCIS or legal help if relevant\n5. Be clear about what is urgent vs what can wait\n6. Include any grace periods or extensions available\n7. Advise consulting an immigration attorney for complex situations\n\nAnswer:"

/-- The prompt used for comparison questions. -/
def comparisonPrompt (context query : String) : String :=
  "You are an immigration law expert assistant. The user has asked a comparison question.\n\nContext:\n"
    ++ context ++ "\n\nUser Question: " ++ query ++
    "\n\nIMPORTANT INSTRUCTIONS:\n1. Create a clear comparison table or side-by-side analysis\n2. Highlight key differences and similarities\n3. Mention pros and cons of each option\n4. Include specific requirements for each option\n5. Provide recommendations based on common scenarios\n6. Use clear formatting to distinguish between options\n\nAnswer:"

/-- The default prompt. -/
def defaultPrompt (context query : String) : String :=
  "You are an immigration law expert assistant. Answer the user\x27s question based on the provided legal context.\n\nContext:\n"
    ++ context ++ "\n\nUser Question: " ++ query ++
    "\n\nIMPORTANT INSTRUCTIONS:\n1. Be accurate and helpful\n2. Cite specific sources when possible\n3. Provide practical guidance\n4. Include relevant regulatory citations\n5. Mention any important limitations or exceptions\n6. Suggest next steps when appropriate\n\nAnswer:"

/-- `generate_answer`: the fixed messages when no documents were retrieved,
otherwise prompt assembly (context of at most 5 documents of at most 800
characters, knowledge-base injection for technical questions, template
dispatch) handed to the generation collaborator.  The `requests` call and
its error handling are the external boundary, modelled by `bot.generate`. -/
def generate_answer (bot : Chatbot) (query : String) (relevant_docs : List ScoredDoc)
    (visa_type : String) : String :=
  if relevant_docs.isEmpty then
    if visa_type == "general" then welcomeMessage else noInfoMessage
  else
    let question_type := classify_question_type query
    let context0 := joinWith "\n" (contextLines 0 (relevant_docs.take 5))
    let context :=
      if question_type == "technical" then inject_knowledge_base query context0 visa_type
      else context0
    let prompt :=
      if visa_type == "general" then generalPrompt query
      else if question_type == "technical" then technicalPrompt context query
      else if question_type == "procedural" then proceduralPrompt context query
      else if question_type == "emergency" then emergencyPrompt context query
      else if question_type == "comparison" then comparisonPrompt context query
      else defaultPrompt context query
    bot.generate prompt

/-! ### `chat` -/

/-- The citation record built from a retrieved document for the `sources`
list of the response. -/
def toSource (d : ScoredDoc) : SourceCite :=
  { title := d.title, url := d.url, section_hint := d.section_hint,
    score := d.score, visa_tags := d.visa_tags }

/-- `chat`: classify the visa type, short-circuit typo clarifications,
classify the question type, retrieve, answer, and assemble the response
with the first 5 sources and the total retrieved count. -/
def chat (bot : Chatbot) (query : String) : ChatResponse :=
  let visa_type := classify_visa_type query
  if strStartsWith visa_type "typo_clarification:" then
    let suggestions := splitOnChar ',' ((splitOnChar ':' visa_type).getD 1 "")
    let clarification_msg :=
      "I noticed you might have a typo in your question. Did you mean one of these visa types?\n\n"
        ++ joinWith "" (suggestions.map (fun s => "• " ++ s ++ "\n"))
        ++ "\nPlease clarify which visa type you\x27re asking about, and I\x27ll be happy to help!"
    { query := query, visa_type := "typo_clarification",
      question_type := "clarification", answer := clarification_msg,
      sources := [], num_sources := 0 }
  else
    let question_type := classify_question_type query
    let relevant_docs := search_relevant_docs bot query visa_type
    let answer := generate_answer bot query relevant_docs visa_type
    { query := query, visa_type := visa_type, question_type := question_type,
      answer := answer, sources := (relevant_docs.take 5).map toSource,
      num_sources := relevant_docs.length }

end RagChatbot

namespace EvalRetrieval

/-! ### The hybrid reranker of `scripts/eval_retrieval.py` (`search`) -/

/-- `vt_map`: raw tag → standardized display label. -/
def vt_map : List (String × String) :=
  [("F1", "F-1"), ("F2", "F-2"), ("J1", "J-1"), ("J2", "J-2"),
   ("H1B", "H-1B"), ("H4", "H-4")]

/-- `vt_map.get(vt_raw, vt_raw)`. -/
def vtStd (vt_raw : String) : String := (List.lookup vt_raw vt_map).getD vt_raw

/-- `((ex or {}).get("visa_type") or "").strip().upper()`. -/
def vtRawOf (ex_visa : Option String) : String := upperString (stripStr (ex_visa.getD ""))

/-- Total lookup into the metadata list (FAISS only returns in-range ids). -/
def metaDoc (meta : List Doc) (i : Nat) : Doc := meta.getD i defaultDoc

/-- `title + " " + section_hint + " " + text` of a document. -/
def hayOf (d : Doc) : String := d.title ++ " " ++ d.section_hint ++ " " ++ d.text

/-- The dependent/spouse keywords checked by the prefilter and the boost. -/
def dep_keywords : List String := ["dependent", "dependents", "spouse", "spouses"]

/-- Whether `vt_std` is one of the dependent-family labels. -/
def isDependentStd (vt_std : String) : Bool :=
  vt_std == "F-2" || vt_std == "J-2" || vt_std == "H-4"

/-- The raw FAISS hits with negative (sentinel) ids dropped:
`[(int(i), float(s)) for i, s in zip(ids[0], scores[0]) if int(i) >= 0]`. -/
def initialCands (raw : List (Int × ℚ)) : List (Nat × ℚ) :=
  raw.filterMap (fun p => if 0 ≤ p.1 then some (p.1.toNat, p.2) else none)

/-- Dependent-visa prefilter: keep candidates mentioning the standardized
label or a dependent keyword, but only adopt the filtered pool when it still
has at least 5 candidates. -/
def prefilterDependent (meta : List Doc) (vt_std : String) (cands : List (Nat × ℚ)) :
    List (Nat × ℚ) :=
  if isDependentStd vt_std then
    let filtered := cands.filter (fun p =>
      let hay := hayOf (metaDoc meta p.1)
      ((!(vt_std == "")) && containsSub hay vt_std) ||
        dep_keywords.any (fun kw => containsSub (lowerString hay) kw))
    if 5 ≤ filtered.length then filtered else cands
  else cands

/-- The candidates whose tag set contains the raw visa tag. -/
def taggedOf (meta : List Doc) (vt_raw : String) (cands : List (Nat × ℚ)) :
    List (Nat × ℚ) :=
  cands.filter (fun p => (metaDoc meta p.1).visa_tags.contains vt_raw)

/-- First tag-preference block: restrict to tagged candidates only when at
least 5 carry the tag. -/
def tagStageStrict (meta : List Doc) (vt_raw : String) (cands : List (Nat × ℚ)) :
    List (Nat × ℚ) :=
  if !(vt_raw == "") then
    let tagged := taggedOf meta vt_raw cands
    if 5 ≤ tagged.length then tagged else cands
  else cands

/-- Second tag-preference block (`if tagged:` in the source): restrict to
tagged candidates whenever at least one carries the tag. -/
def tagStageLoose (meta : List Doc) (vt_raw : String) (cands : List (Nat × ℚ)) :
    List (Nat × ℚ) :=
  if !(vt_raw == "") then
    let tagged := taggedOf meta vt_raw cands
    if !tagged.isEmpty then tagged else cands
  else cands

/-- The candidate pool after all three filtering stages. -/
def stagesOf (meta : List Doc) (ex_visa : Option String) (raw : List (Int × ℚ)) :
    List (Nat × ℚ) :=
  let vt_raw := vtRawOf ex_visa
  let vt_std := vtStd vt_raw
  tagStageLoose meta vt_raw (tagStageStrict meta vt_raw
    (prefilterDependent meta vt_std (initialCands raw)))

/-- The categorical boost of one document: +0.2 for the raw tag, +0.1 for the
standardized label in title/section/text, +0.05 per dependent keyword for
dependent-family visas. -/
def boost (vt_raw vt_std : String) (doc : Doc) : ℚ :=
  let b0 : ℚ := 0
  let b1 := if (!(vt_raw == "")) && doc.visa_tags.contains vt_raw then b0 + 1/5 else b0
  let hay := hayOf doc
  let b2 := if (!(vt_std == "")) && containsSub hay vt_std then b1 + 1/10 else b1
  if isDependentStd vt_std then
    dep_keywords.foldl
      (fun b kw => if containsSub (lowerString hay) kw then b + 1/20 else b) b2
  else b2

/-- `meta[i].get("title", "") + "\n" + (meta[i].get("text", "") or "")`. -/
def candText (meta : List Doc) (i : Nat) : String :=
  (metaDoc meta i).title ++ "\n" ++ (metaDoc meta i).text

/-- The blended scores: base similarity + 0.15 · TF-IDF + categorical boost.
`tfidf q t` is the cosine similarity computed by the sklearn collaborator
between the query and a candidate's title+text. -/
def blendedOf (meta : List Doc) (tfidf : String → String → ℚ) (q : String)
    (vt_raw vt_std : String) (cands : List (Nat × ℚ)) : List (Nat × ℚ) :=
  cands.map (fun p =>
    (p.1, p.2 + (3/20 : ℚ) * tfidf q (candText meta p.1)
        + boost vt_raw vt_std (metaDoc meta p.1)))

/-- Stable descending insertion (model of Python's stable
`sorted(..., reverse=True)`): an element goes before the first strictly or
equally smaller score, and before equal scores of later elements. -/
def insertDesc (x : Nat × ℚ) : List (Nat × ℚ) → List (Nat × ℚ)
  | [] => [x]
  | y :: ys => if y.2 ≤ x.2 then x :: y :: ys else y :: insertDesc x ys

/-- Stable descending sort by the blended score. -/
def sortDesc : List (Nat × ℚ) → List (Nat × ℚ)
  | [] => []
  | x :: xs => insertDesc x (sortDesc xs)

/-- `search` of `eval_retrieval.py`: drop sentinel ids, run the three
filtering stages, blend TF-IDF and boosts into the scores, sort descending
and return the ids of the top `k`. -/
def search (meta : List Doc) (tfidf : String → String → ℚ) (q : String) (k : Nat)
    (ex_visa : Option String) (raw : List (Int × ℚ)) : List Nat :=
  let vt_raw := vtRawOf ex_visa
  let vt_std := vtStd vt_raw
  let blended := blendedOf meta tfidf q vt_raw vt_std (stagesOf meta ex_visa raw)
  ((sortDesc blended).take k).map Prod.fst

end EvalRetrieval

/-! ## Concrete fixtures used by counterexamples and witnesses -/

/-- A chatbot with no indexes loaded. -/
def trivialBot : Chatbot :=
  { hasIndex := fun _ => false, metas := fun _ => [],
    searchFn := fun _ _ => [], generate := fun _ => "" }

/-- A chatbot whose general index returns one high-scoring hit. -/
def botGeneralHit : Chatbot :=
  { hasIndex := fun v => v == "general",
    metas := fun v => if v == "general" then [defaultDoc] else [],
    searchFn := fun _ _ => [(0, mkRat 9 10)],
    generate := fun _ => "llm output" }

/-- A chatbot whose F1 index returns 8 hits, all above the 0.1 threshold,
in descending score order. -/
def bot8 : Chatbot :=
  { hasIndex := fun v => v == "F1",
    metas := fun v => if v == "F1" then List.replicate 8 defaultDoc else [],
    searchFn := fun _ _ =>
      [(0, mkRat 9 10), (1, mkRat 17 20), (2, mkRat 4 5), (3, mkRat 3 4),
       (4, mkRat 7 10), (5, mkRat 13 20), (6, mkRat 3 5), (7, mkRat 11 20)],
    generate := fun _ => "llm output" }

/-- A chatbot whose F1 index returns one hit at exactly the 0.1 threshold. -/
def botExact : Chatbot :=
  { hasIndex := fun v => v == "F1",
    metas := fun v => if v == "F1" then [defaultDoc] else [],
    searchFn := fun _ _ => [(0, mkRat 1 10)], generate := fun _ => "" }

/-- A chatbot whose F1 index returns one hit just above the 0.1 threshold
(similarity 0.1000001). -/
def botJustAbove : Chatbot :=
  { hasIndex := fun v => v == "F1",
    metas := fun v => if v == "F1" then [defaultDoc] else [],
    searchFn := fun _ _ => [(0, mkRat 1000001 10000000)], generate := fun _ => "" }

/-- A chatbot whose F1 index returns one sentinel hit with id −1. -/
def botNegId : Chatbot :=
  { hasIndex := fun v => v == "F1",
    metas := fun v => if v == "F1" then [defaultDoc] else [],
    searchFn := fun _ _ => [(-1, mkRat 9 10)], generate := fun _ => "" }

/-- Metadata for the reranker fixtures: 5 documents, only the first tagged
with the raw visa tag F1. -/
def c1Meta : List Doc :=
  [{ defaultDoc with visa_tags := ["F1"] },
   defaultDoc, defaultDoc, defaultDoc, defaultDoc]

/-- Five raw FAISS hits with valid ids and descending scores. -/
def c1Raw : List (Int × ℚ) :=
  [(0, mkRat 9 10), (1, mkRat 4 5), (2, mkRat 7 10), (3, mkRat 3 5), (4, mkRat 1 2)]

/-! ## Helper lemmas -/

theorem insertDesc_perm (x : Nat × ℚ) (l : List (Nat × ℚ)) :
    List.Perm (EvalRetrieval.insertDesc x l) (x :: l) := by
  induction l with
  | nil => simp [EvalRetrieval.insertDesc]
  | cons y ys ih =>
    simp only [EvalRetrieval.insertDesc]
    split
    · exact List.Perm.refl _
    · exact (ih.cons y).trans (List.Perm.swap x y ys)

theorem sortDesc_perm (l : List (Nat × ℚ)) :
    List.Perm (EvalRetrieval.sortDesc l) l := by
  induction l with
  | nil => simp [EvalRetrieval.sortDesc]
  | cons x xs ih =>
    simp only [EvalRetrieval.sortDesc]
    exact (insertDesc_perm x _).trans (ih.cons x)

theorem insertDesc_pairwise {x : Nat × ℚ} {l : List (Nat × ℚ)}
    (h : l.Pairwise (fun a b => b.2 ≤ a.2)) :
    (EvalRetrieval.insertDesc x l).Pairwise (fun a b => b.2 ≤ a.2) := by
  induction l with
  | nil => simp [EvalRetrieval.insertDesc]
  | cons y ys ih =>
    rcases List.pairwise_cons.mp h with ⟨hy, hys⟩
    simp only [EvalRetrieval.insertDesc]
    split
    · next hle =>
      refine List.pairwise_cons.mpr ⟨?_, h⟩
      intro z hz
      rcases List.mem_cons.mp hz with rfl | hz'
      · exact hle
      · exact le_trans (hy z hz') hle
    · next hgt =>
      refine List.pairwise_cons.mpr ⟨?_, ih hys⟩
      intro z hz
      rcases List.mem_cons.mp ((insertDesc_perm x ys).mem_iff.mp hz) with rfl | hz'
      · exact le_of_not_le hgt
      · exact hy z hz'

theorem sortDesc_pairwise (l : List (Nat × ℚ)) :
    (EvalRetrieval.sortDesc l).Pairwise (fun a b => b.2 ≤ a.2) := by
  induction l with
  | nil => simp [EvalRetrieval.sortDesc]
  | cons x xs ih =>
    simp only [EvalRetrieval.sortDesc]
    exact insertDesc_pairwise ih

theorem foldl_bonus_count (P : String → Bool) (c : ℚ) :
    ∀ (l : List String) (a : ℚ),
      l.foldl (fun b kw => if P kw then b + c else b) a
        = a + ((l.filter P).length : ℚ) * c := by
  intro l
  induction l with
  | nil => intro a; simp
  | cons kw rest ih =>
    intro a
    by_cases h : P kw
    · simp only [List.foldl_cons, h, if_true, List.filter_cons_of_pos h, ih,
        List.length_cons]
      push_cast
      ring
    · have h' : P kw = false := by simpa using h
      simp only [List.foldl_cons, h', Bool.false_eq_true, if_false,
        List.filter_cons_of_neg h, ih]

/-- Closed form of the categorical boost: the three additive contributions of
the source's sequential accumulation. -/
theorem boost_eq (vt_raw vt_std : String) (d : Doc) :
    EvalRetrieval.boost vt_raw vt_std d =
      (if (!(vt_raw == "")) && d.visa_tags.contains vt_raw then (1/5 : ℚ) else 0)
      + (if (!(vt_std == "")) && containsSub (EvalRetrieval.hayOf d) vt_std
          then (1/10 : ℚ) else 0)
      + (if EvalRetrieval.isDependentStd vt_std then
          ((EvalRetrieval.dep_keywords.filter
            (fun kw => containsSub (lowerString (EvalRetrieval.hayOf d)) kw)).length : ℚ)
            * (1/20)
        else 0) := by
  simp only [EvalRetrieval.boost]
  split_ifs <;> simp [foldl_bonus_count]

/-! ## Claims -/

section Claims

open RagChatbot EvalRetrieval

/-- C1 (counterexample).  The claim that no reranker stage reduces a pool of
at least 5 candidates below 5 is false: on a pool of 5 valid hits of which
exactly one document carries the raw visa tag "F1", the dependent prefilter
and the first (guarded) tag stage leave all 5 candidates, but the second
tag-preference stage — guarded only by `if tagged:` in the source — shrinks
the pool to that single tagged candidate. -/
theorem C1_counterexample :
    (initialCands c1Raw).length = 5 ∧
    (tagStageStrict c1Meta "F1"
      (prefilterDependent c1Meta (vtStd "F1") (initialCands c1Raw))).length = 5 ∧
    (tagStageLoose c1Meta "F1" (tagStageStrict c1Meta "F1"
      (prefilterDependent c1Meta (vtStd "F1") (initialCands c1Raw)))).length = 1 ∧
    (stagesOf c1Meta (some "F1") c1Raw).length = 1 := by decide

/-- C1 (amended).  The dependent-visa prefilter and the first, guarded
tag-preference stage keep the pool at or above 5 whenever their input has at
least 5 candidates, and the full stage cascade never empties a pool of at
least 5 candidates; the second tag-preference stage, however, restricts to
the tagged candidates whenever at least one exists, so the cascade may
return fewer than 5 (but at least one) candidates. -/
theorem C1_amended (meta : List Doc) (vt_raw vt_std : String)
    (cands : List (Nat × ℚ)) (h5 : 5 ≤ cands.length) :
    5 ≤ (prefilterDependent meta vt_std cands).length ∧
    5 ≤ (tagStageStrict meta vt_raw (prefilterDependent meta vt_std cands)).length ∧
    tagStageLoose meta vt_raw
      (tagStageStrict meta vt_raw (prefilterDependent meta vt_std cands)) ≠ [] := by
  have hpre : ∀ l : List (Nat × ℚ), 5 ≤ l.length →
      5 ≤ (prefilterDependent meta vt_std l).length := by
    intro l hl
    unfold prefilterDependent
    split
    · dsimp only
      split
      · next hf => exact hf
      · exact hl
    · exact hl
  have hstrict : ∀ l : List (Nat × ℚ), 5 ≤ l.length →
      5 ≤ (tagStageStrict meta vt_raw l).length := by
    intro l hl
    unfold tagStageStrict
    split
    · dsimp only
      split
      · next hf => exact hf
      · exact hl
    · exact hl
  have hloose : ∀ l : List (Nat × ℚ), 5 ≤ l.length →
      tagStageLoose meta vt_raw l ≠ [] := by
    intro l hl
    have hne : l ≠ [] := List.length_pos.mp (lt_of_lt_of_le (by norm_num) hl)
    unfold tagStageLoose
    split
    · dsimp only
      split
      · next ht => simpa [List.isEmpty_iff] using ht
      · exact hne
    · exact hne
  exact ⟨hpre cands h5, hstrict _ (hpre cands h5), hloose _ (hstrict _ (hpre cands h5))⟩

/-- C1 (witness for the amended theorem). -/
theorem C1_amended_witness :
    5 ≤ (prefilterDependent c1Meta (vtStd "F1") (initialCands c1Raw)).length :=
  (C1_amended c1Meta "F1" (vtStd "F1") (initialCands c1Raw) (by decide)).1

/-- C2.  The reranker's output is the id sequence of the blended list sorted
in descending blended score and truncated to the top `k`, the sorted list is
a permutation of the blended list, and the blended score of every candidate
is its base similarity plus 0.15 times the TF-IDF similarity of the query
against the candidate's title+text, plus +0.2 for carrying the raw visa tag,
+0.1 for mentioning the standardized label in title/section/text, and +0.05
per dependent keyword when the visa is a dependent-family type. -/
theorem C2_blended_scoring (meta : List Doc) (tfidf : String → String → ℚ)
    (q : String) (k : Nat) (ex_visa : Option String) (raw : List (Int × ℚ))
    (vt_raw vt_std : String) (cands : List (Nat × ℚ)) :
    EvalRetrieval.search meta tfidf q k ex_visa raw
      = ((sortDesc (blendedOf meta tfidf q (vtRawOf ex_visa)
            (vtStd (vtRawOf ex_visa)) (stagesOf meta ex_visa raw))).take k).map Prod.fst ∧
    (EvalRetrieval.search meta tfidf q k ex_visa raw).length ≤ k ∧
    List.Perm
      (sortDesc (blendedOf meta tfidf q (vtRawOf ex_visa)
        (vtStd (vtRawOf ex_visa)) (stagesOf meta ex_visa raw)))
      (blendedOf meta tfidf q (vtRawOf ex_visa)
        (vtStd (vtRawOf ex_visa)) (stagesOf meta ex_visa raw)) ∧
    (sortDesc (blendedOf meta tfidf q (vtRawOf ex_visa)
      (vtStd (vtRawOf ex_visa)) (stagesOf meta ex_visa raw))).Pairwise
      (fun a b => b.2 ≤ a.2) ∧
    blendedOf meta tfidf q vt_raw vt_std cands
      = cands.map (fun p =>
          (p.1, p.2 + (3/20 : ℚ) * tfidf q (candText meta p.1)
            + ((if (!(vt_raw == "")) && (metaDoc meta p.1).visa_tags.contains vt_raw
                  then (1/5 : ℚ) else 0)
              + (if (!(vt_std == "")) && containsSub (hayOf (metaDoc meta p.1)) vt_std
                  then (1/10 : ℚ) else 0)
              + (if isDependentStd vt_std then
                  ((dep_keywords.filter (fun kw =>
                      containsSub (lowerString (hayOf (metaDoc meta p.1))) kw)).length : ℚ)
                    * (1/20)
                else 0)))) := by
  refine ⟨rfl, ?_, sortDesc_perm _, sortDesc_pairwise _, ?_⟩
  · show (((sortDesc _).take k).map Prod.fst).length ≤ k
    rw [List.length_map]
    exact le_trans (List.length_take_le k _) (le_refl k)
  · unfold blendedOf
    congr 1
    funext p
    rw [boost_eq]

/-- C3.  Retrieval keeps exactly the hits with a non-negative index position
and similarity strictly above 0.1 (the threshold constant `mkRat 1 10` is
the rational 1/10): every returned document originates from such a hit and
carries its score, a hit at exactly 0.1 is excluded, a hit at 0.1000001 with
index 0 is included, and a hit with index −1 is discarded. -/
theorem C3_threshold :
    (∀ (bot : Chatbot) (q v : String) (d : ScoredDoc),
        d ∈ search_relevant_docs bot q v → mkRat 1 10 < d.score) ∧
    (∀ (bot : Chatbot) (q v : String) (d : ScoredDoc),
        d ∈ search_relevant_docs bot q v →
        ∃ p ∈ bot.searchFn v (retrievalK q),
          0 ≤ p.1 ∧ mkRat 1 10 < p.2 ∧
          d = attachScore ((bot.metas v).getD p.1.toNat defaultDoc) p.2) ∧
    (mkRat 1 10 : ℚ) = 1/10 ∧
    search_relevant_docs botExact "q" "F1" = [] ∧
    (search_relevant_docs botJustAbove "q" "F1").length = 1 ∧
    search_relevant_docs botNegId "q" "F1" = [] := by
  have hmain : ∀ (bot : Chatbot) (q v : String) (d : ScoredDoc),
      d ∈ search_relevant_docs bot q v →
      ∃ p ∈ bot.searchFn v (retrievalK q),
        0 ≤ p.1 ∧ mkRat 1 10 < p.2 ∧
        d = attachScore ((bot.metas v).getD p.1.toNat defaultDoc) p.2 := by
    intro bot q v d hd
    cases h : bot.hasIndex v with
    | false => simp [search_relevant_docs, h] at hd
    | true =>
      simp only [search_relevant_docs, h, Bool.not_true, Bool.false_eq_true,
        if_false] at hd
      rcases List.mem_map.mp hd with ⟨p, hp, rfl⟩
      rcases List.mem_filter.mp hp with ⟨hmem, hcond⟩
      have hc := of_decide_eq_true hcond
      exact ⟨p, hmem, hc.1, hc.2, rfl⟩
  refine ⟨?_, hmain, by norm_num, by decide, by decide, by decide⟩
  intro bot q v d hd
  rcases hmain bot q v d hd with ⟨p, _, _, hlt, rfl⟩
  exact hlt

/-- C3 (witness): the characterisations applied to the boundary chatbot
whose single hit scores 0.1000001. -/
theorem C3_threshold_witness :
    mkRat 1 10
      < (attachScore defaultDoc (mkRat 1000001 10000000) : ScoredDoc).score :=
  C3_threshold.1 botJustAbove "q" "F1" _ (by decide)

/-- C4 (counterexample).  For the query "hvb work visa" the classifier does
detect the typo "hvb", but the keyword "work" gives the H1B category a
positive score, so the typo-clarification path (which requires the best
score to be 0) is not taken: the classifier returns "H1B" and the chat
response does not carry `visa_type = "typo_clarification"`. -/
theorem C4_counterexample :
    classify_visa_type "hvb work visa" = "H1B" ∧
    (chat trivialBot "hvb work visa").visa_type = "H1B" ∧
    (chat trivialBot "hvb work visa").visa_type ≠ "typo_clarification" := by decide

/-- C4 (amended).  For the query "hvb visa" — the claimed behaviour without
the H1B-scoring keyword "work" — the classifier detects the typo, no visa
category scores above 0, and the typo-clarification outcome is returned with
suggestion "H-1B (work visa)"; the chat response carries
`visa_type = "typo_clarification"` and its clarification message contains
the suggestion. -/
theorem C4_amended :
    classify_visa_type "hvb visa" = "typo_clarification:H-1B (work visa)" ∧
    (chat trivialBot "hvb visa").visa_type = "typo_clarification" ∧
    containsSub (chat trivialBot "hvb visa").answer "H-1B (work visa)" = true := by
  decide

/-- C5.  Any query containing a greeting phrase as a whole word classifies as
"general", regardless of any co-occurring visa keywords or codes: the
greeting check is the first test in `classify_visa_type` and returns
immediately. -/
theorem C5_greeting (q : String) (h : greetingHit (lowerString q) = true) :
    classify_visa_type q = "general" := by
  simp [classify_visa_type, h]

/-- C5 (witness): the greeting short-circuit on a query that also contains
the visa code "F-1" and the H1B keyword "work". -/
theorem C5_greeting_witness :
    greetingHit (lowerString "Hi, tell me about F-1 work rules") = true ∧
    classify_visa_type "Hi, tell me about F-1 work rules" = "general" :=
  ⟨by decide, C5_greeting "Hi, tell me about F-1 work rules" (by decide)⟩

/-- C6.  Retrieval returns the empty sequence when no index is loaded for the
visa label; otherwise, assuming the FAISS collaborator returns at most `k`
hits in descending similarity order, the result has at most `k` elements and
is ordered by descending similarity, where `k` is 8 for technical,
procedural, or emergency questions and 5 otherwise. -/
theorem C6_retrieval (bot : Chatbot) (q v : String)
    (hlen : (bot.searchFn v (retrievalK q)).length ≤ retrievalK q)
    (hsorted : (bot.searchFn v (retrievalK q)).Pairwise (fun a b => b.2 ≤ a.2)) :
    (bot.hasIndex v = false → search_relevant_docs bot q v = []) ∧
    (search_relevant_docs bot q v).length ≤ retrievalK q ∧
    (search_relevant_docs bot q v).Pairwise (fun d e => e.score ≤ d.score) ∧
    retrievalK q = (if classify_question_type q = "technical"
        ∨ classify_question_type q = "procedural"
        ∨ classify_question_type q = "emergency" then 8 else 5) := by
  refine ⟨?_, ?_, ?_, ?_⟩
  · intro h
    simp [search_relevant_docs, h]
  · cases h : bot.hasIndex v with
    | false => simp [search_relevant_docs, h]
    | true =>
      simp only [search_relevant_docs, h, Bool.not_true, Bool.false_eq_true,
        if_false, List.length_map]
      exact le_trans (List.length_filter_le _ _) hlen
  · cases h : bot.hasIndex v with
    | false => simp [search_relevant_docs, h]
    | true =>
      simp only [search_relevant_docs, h, Bool.not_true, Bool.false_eq_true,
        if_false]
      exact List.pairwise_map.mpr
        (List.Pairwise.sublist (List.filter_sublist _) hsorted)
  · simp [retrievalK, List.mem_cons]

/-- C6 (witness): the bound applied to the 8-hit chatbot on a technical
query. -/
theorem C6_retrieval_witness :
    (search_relevant_docs bot8 "f1 opt unemployment days limit" "F1").length
      ≤ retrievalK "f1 opt unemployment days limit" :=
  (C6_retrieval bot8 "f1 opt unemployment days limit" "F1"
    (by decide) (by decide)).2.1

/-- C7 (counterexample).  For the query "Can F-1 students work more than 20
hours during school?" the question classifier returns "technical" (the
substring "hours" is a technical keyword), not a label in
{general, procedural}, and the retrieval depth is therefore 8, not 5. -/
theorem C7_counterexample :
    classify_question_type "Can F-1 students work more than 20 hours during school?"
      = "technical" ∧
    ¬(classify_question_type "Can F-1 students work more than 20 hours during school?"
        = "general"
      ∨ classify_question_type "Can F-1 students work more than 20 hours during school?"
        = "procedural") ∧
    retrievalK "Can F-1 students work more than 20 hours during school?" = 8 := by
  decide

/-- C7 (amended).  For that query the classified visa type is "F1", the
classified question type is "technical", and the retrieval depth used is
8. -/
theorem C7_amended :
    classify_visa_type "Can F-1 students work more than 20 hours during school?"
      = "F1" ∧
    classify_question_type "Can F-1 students work more than 20 hours during school?"
      = "technical" ∧
    retrievalK "Can F-1 students work more than 20 hours during school?" = 8 := by
  decide

set_option maxRecDepth 100000 in
/-- C8 (counterexample).  The claimed response for "hello" is not
unconditional: against a chatbot whose loaded general index returns a hit
scoring 0.9, the chat response for "hello" still has `visa_type = "general"`
but has one source and `num_sources = 1`, and the answer is produced by the
generation collaborator rather than the fixed welcome message. -/
theorem C8_counterexample :
    (chat botGeneralHit "hello").visa_type = "general" ∧
    (chat botGeneralHit "hello").num_sources = 1 ∧
    (chat botGeneralHit "hello").sources ≠ [] := by decide

/-- C8 (amended).  For the query "hello" the response always has
`visa_type = "general"` and `question_type = "general"`; when retrieval
returns no documents (in particular when no general index is loaded), the
answer is the fixed welcome message, `sources = []` and `num_sources = 0`. -/
theorem C8_amended (bot : Chatbot)
    (h : search_relevant_docs bot "hello" "general" = []) :
    (chat bot "hello").visa_type = "general" ∧
    (chat bot "hello").question_type = "general" ∧
    (chat bot "hello").answer = welcomeMessage ∧
    (chat bot "hello").sources = [] ∧
    (chat bot "hello").num_sources = 0 := by
  have hv : classify_visa_type "hello" = "general" := by decide
  have hq : classify_question_type "hello" = "general" := by decide
  have hs : strStartsWith (classify_visa_type "hello") "typo_clarification:" = false := by
    decide
  have hs' : strStartsWith "general" "typo_clarification:" = false := by decide
  refine ⟨?_, ?_, ?_, ?_, ?_⟩ <;>
    simp [chat, hv, hq, hs, hs', h, generate_answer]

/-- C8 (witness for the amended theorem): the chatbot with no indexes. -/
theorem C8_amended_witness :
    (chat trivialBot "hello").answer = welcomeMessage ∧
    (chat trivialBot "hello").num_sources = 0 :=
  ⟨(C8_amended trivialBot (by decide)).2.2.1,
   (C8_amended trivialBot (by decide)).2.2.2.2⟩

/-- C9.  Knowledge-base augmentation is append-only and deterministic: the
result is always the original context followed by `kbSuffix query visa`,
which depends only on the query and visa type (not on the context); when no
trigger rule matches, the appended suffix is empty and the context is
returned unchanged. -/
theorem C9_inject (query context visa_type : String) :
    inject_knowledge_base query context visa_type
      = context ++ kbSuffix query visa_type ∧
    ((additionalInfo query visa_type).isEmpty = true →
      inject_knowledge_base query context visa_type = context) := by
  constructor
  · unfold inject_knowledge_base kbSuffix
    by_cases h : (additionalInfo query visa_type).isEmpty
    · simp [h, String.append_empty]
    · simp [h, String.append_assoc]
  · intro h
    unfold inject_knowledge_base
    simp [h]

/-- C9 (witness): a query firing no rule leaves the context unchanged. -/
theorem C9_inject_witness :
    inject_knowledge_base "hi" "CTX" "F1" = "CTX" :=
  (C9_inject "hi" "CTX" "F1").2 (by decide)

set_option maxRecDepth 100000 in
/-- C10.  In every non-clarification chat response, `num_sources` is the
total number of retrieved candidates while `sources` is the first 5 of them;
on the 8-hit chatbot with a technical query (retrieval depth 8, all hits
above the threshold), `num_sources = 8` strictly exceeds the 5 listed
sources. -/
theorem C10_sources :
    (∀ (bot : Chatbot) (q : String),
        strStartsWith (classify_visa_type q) "typo_clarification:" = false →
        (chat bot q).num_sources
            = (search_relevant_docs bot q (classify_visa_type q)).length ∧
        (chat bot q).sources
            = ((search_relevant_docs bot q (classify_visa_type q)).take 5).map
                toSource) ∧
    (chat bot8 "f1 opt unemployment days limit").num_sources = 8 ∧
    (chat bot8 "f1 opt unemployment days limit").sources.length = 5 := by
  refine ⟨?_, by decide, by decide⟩
  intro bot q h
  constructor <;> simp [chat, h]

/-- C10 (witness): the relation applied to the index-free chatbot. -/
theorem C10_sources_witness :
    (chat trivialBot "hello").num_sources
      = (search_relevant_docs trivialBot "hello" (classify_visa_type "hello")).length :=
  (C10_sources.1 trivialBot "hello" (by decide)).1

end Claims

end VisaGuardian
